import Mathlib

/-!
Verification of the pyq-finder harvesting engine against its design document.

This file gives a shallow embedding, in Lean 4, of the parts of the
`backend/app` Python code that the design document's claims are about:

* the Metadata Extractor (`portal1_scraper._parse_pdf_link`,
  `_extract_year`, `_extract_semester`, `_extract_branch`,
  `_parse_filename`, `_roman_to_int`);
* the Deduplication Gate (`firebase_service.paper_exists_by_metadata`);
* the Flat-List Harvester's concurrent batch pipeline
  (`portal1_scraper._scrape_concurrent` and the sequential loop in
  `scrape_all`);
* the Tree Harvester's branch-level traversal
  (`portal2_scraper._scrape_branch_level`);
* the Coordinator (`routes/scraper.run_scrape` and `start_scrape`).

Python strings are modelled as Lean `String`/`List Char` with an ASCII model
of `str.lower`/`str.upper`; Python regular-expression searches are modelled
by equivalent deterministic scanners (the patterns involved have no
effective backtracking, see the comments at each scanner); the Firestore
collection is modelled as a list of records and `where`-chains as
conjunctive filters; thread interleavings, completion order of futures and
possible exception deliveries are modelled by explicit oracle parameters.
-/

set_option maxRecDepth 8000

/-! ## ASCII character model of Python string primitives -/

/-- ASCII model of Python `str.lower` on a single character. -/
def pyLowerChar (c : Char) : Char :=
  if 65 ≤ c.toNat ∧ c.toNat ≤ 90 then Char.ofNat (c.toNat + 32) else c

/-- ASCII model of Python `str.upper` on a single character. -/
def pyUpperChar (c : Char) : Char :=
  if 97 ≤ c.toNat ∧ c.toNat ≤ 122 then Char.ofNat (c.toNat - 32) else c

/-- Python regex `\s` (ASCII): space, tab, newline, carriage return,
vertical tab, form feed. -/
def isSpaceChar (c : Char) : Bool :=
  c = ' ' || c = '\t' || c = '\n' || c = '\r' || c = '\x0b' || c = '\x0c'

/-- `subCharList needle hay`: Python's `needle in hay` substring test. -/
def subCharList (needle : List Char) : List Char → Bool
  | [] => needle.isPrefixOf []
  | l@(_ :: t) => needle.isPrefixOf l || subCharList needle t

/-- Python `hay.__contains__(needle)` on strings. -/
def strContains (hay needle : String) : Bool :=
  subCharList needle.data hay.data

/-- Python `s.split(sep)` for a single-character separator (keeps empty
segments, always returns at least one segment). -/
def splitOnChar (sep : Char) : List Char → List (List Char)
  | [] => [[]]
  | c :: rest =>
    match splitOnChar sep rest with
    | h :: t => if c = sep then [] :: h :: t else (c :: h) :: t
    | [] => [[c]]

/-- Python `s.strip()` (ASCII whitespace model). -/
def stripChars (l : List Char) : List Char :=
  ((l.dropWhile isSpaceChar).reverse.dropWhile isSpaceChar).reverse

/-! ## The Record data model (`app/models/paper.py`, class `Paper`)

The `id`, `created_at` and `updated_at` fields (set later by the Ingestion
Sink) play no role in any claim and are omitted. -/

structure Paper where
  title : String
  subject_code : String
  subject_name : String
  year : String
  semester : String
  branch : String
  exam_type : String
  pdf_url : String
  storage_url : String
  portal : String
deriving DecidableEq, Repr

/-! ## Metadata Extractor (`portal1_scraper.py` lines 108-220)

`_extract_year` uses `re.findall(r'20\d{2}', path)` and takes the first
match; that equals the leftmost position where `'2','0',digit,digit`
occur. -/

def yearSearch : List Char → Option (List Char)
  | '2' :: '0' :: a :: b :: rest =>
      if a.isDigit && b.isDigit then some ['2', '0', a, b]
      else yearSearch ('0' :: a :: b :: rest)
  | _ :: rest => yearSearch rest
  | [] => none

/-- `_extract_year`: first `20\d{2}` match in the path, else `""`. -/
def extract_year (path : String) : String :=
  match yearSearch path.data with
  | some y => String.mk y
  | none => ""

/-- `_roman_to_int` values dict: `{'I': 1, 'V': 5, 'X': 10}` with
`values.get(char, 0)`. -/
def romanValue : Char → Nat
  | 'I' => 1
  | 'V' => 5
  | 'X' => 10
  | _ => 0

/-- One step of the `for char in reversed(roman.upper())` loop of
`_roman_to_int`; the state is `(result, prev)`. -/
def romanFoldStep (st : Int × Nat) (c : Char) : Int × Nat :=
  let curr := romanValue c
  (if curr < st.2 then st.1 - (curr : Int) else st.1 + (curr : Int), curr)

/-- `_roman_to_int` (identical in `portal1_scraper.py` lines 206-220 and
`portal2_scraper.py` lines 413-425). -/
def roman_to_int (roman : String) : Int :=
  ((roman.data.map pyUpperChar).reverse.foldl romanFoldStep (0, 0)).1

/-- Formalisation of the claim side of C7, from the spec's words: standard
subtractive roman-numeral decoding — "a smaller-value letter preceding a
larger one subtracts, otherwise adds" (I=1, V=5, X=10), scanning left to
right. -/
def subDecode : List Char → Int
  | [] => 0
  | [c] => (romanValue c : Int)
  | c :: d :: rest =>
      (if romanValue c < romanValue d then -(romanValue c : Int)
       else (romanValue c : Int)) + subDecode (d :: rest)

/-- Characters matched by `[IVX]` under `re.IGNORECASE`. -/
def isRomanChar (c : Char) : Bool :=
  c = 'I' || c = 'V' || c = 'X' || c = 'i' || c = 'v' || c = 'x'

/-- Try to match `([IVX]+)\s*[Ss]em` (with `re.IGNORECASE`) at the head of
`l`, returning the group.  The pattern has no effective backtracking: the
characters accepted by `[IVX]+`, by `\s*` and the letter `s` are pairwise
disjoint, so greedy maximal runs are exact. -/
def semMatchAt (l : List Char) : Option (List Char) :=
  let run := l.takeWhile isRomanChar
  if run = [] then none
  else
    match (l.dropWhile isRomanChar).dropWhile isSpaceChar with
    | a :: b :: c :: _ =>
        if pyLowerChar a = 's' ∧ pyLowerChar b = 'e' ∧ pyLowerChar c = 'm'
        then some run else none
    | _ => none

/-- `re.search` of the semester pattern: leftmost match. -/
def semSearch : List Char → Option (List Char)
  | [] => none
  | l@(_ :: t) =>
    match semMatchAt l with
    | some run => some run
    | none => semSearch t

/-- `_extract_semester` (identical in both scrapers): first
`([IVX]+)\s*[Ss]em` match, rendered as `Semester <n>` via
`_roman_to_int`. -/
def extract_semester (text : String) : String :=
  match semSearch text.data with
  | some run => "Semester " ++ toString (roman_to_int (String.mk (run.map pyUpperChar)))
  | none => ""

/-- The branch enumeration of `portal1_scraper._extract_branch`
(lines 168-174), in source order. -/
def portal1Branches : List String :=
  ["Chemical", "Civil", "Computer", "Electrical", "Electronics",
   "Information Technology", "Mechanical", "Mechatronics",
   "Automobile", "Aeronautical", "Biomedical", "Biotechnology",
   "Industrial", "Instrumentation", "Computer and Communication",
   "Architecture"]

/-- The branch enumeration of `portal2_scraper._extract_branch`
(lines 400-405), in source order. -/
def portal2Branches : List String :=
  ["Chemical", "Civil", "Computer", "Electrical", "Electronics",
   "Information Technology", "Mechanical", "Mechatronics",
   "Automobile", "Aeronautical", "Biomedical", "Biotechnology",
   "Industrial", "Instrumentation", "Computer and Communication"]

/-- `_extract_branch`: first branch in the enumeration whose lowercased
name is a substring of the lowercased text, else `""`. -/
def extract_branch (branches : List String) (text : String) : String :=
  let lowered := text.data.map pyLowerChar
  match branches.find? (fun b => subCharList (b.data.map pyLowerChar) lowered) with
  | some b => b
  | none => ""

/-- Python `name.replace('.pdf', '')`: remove every occurrence, scanning
left to right. -/
def replacePdf : List Char → List Char
  | '.' :: 'p' :: 'd' :: 'f' :: rest => replacePdf rest
  | c :: rest => c :: replacePdf rest
  | [] => []

/-- Try to match `\s*\(?[Mm]akeup\)?` at the head of `l`; on success
return the remainder after the match.  No effective backtracking: after a
shorter `\s*` or dropped `\(?` the next character can never start
`[Mm]akeup`. -/
def matchMakeupAt (l : List Char) : Option (List Char) :=
  let r1 := l.dropWhile isSpaceChar
  let r2 := match r1 with
    | '(' :: r => r
    | _ => r1
  match r2 with
  | m :: 'a' :: 'k' :: 'e' :: 'u' :: 'p' :: r =>
      if m = 'M' ∨ m = 'm' then
        some (match r with
              | ')' :: r3 => r3
              | _ => r)
      else none
  | _ => none

/-- `re.sub(r'\s*\(?[Mm]akeup\)?', '', name)`: scan left to right,
replacing each match with nothing.  Fuel-indexed; every match consumes at
least the six characters of `akeup` plus one, so fuel `l.length` always
suffices. -/
def subMakeupGo : Nat → List Char → List Char
  | 0, l => l
  | _, [] => []
  | fuel + 1, l@(c :: rest) =>
    match matchMakeupAt l with
    | some r => subMakeupGo fuel r
    | none => c :: subMakeupGo fuel rest

/-- Python `c.isupper()` range `[A-Z]`. -/
def isUpperAZ (c : Char) : Bool :=
  decide (65 ≤ c.toNat) && decide (c.toNat ≤ 90)

/-- Characters matched by `[\s-]`. -/
def isSpaceDash (c : Char) : Bool :=
  isSpaceChar c || c = '-'

/-- Try to match `\(([A-Z]{2,4}[\s-]*\d{4})\)` at the head of `l`,
returning the group.  Backtracking analysis: if the maximal `[A-Z]` run
from the `(` has length outside `[2,4]` every shorter choice also fails
(the following character is then an uppercase letter, matching neither
`[\s-]` nor `\d`); likewise a shorter `[\s-]*` run fails, so greedy
maximal runs are exact. -/
def codeMatchAt : List Char → Option (List Char)
  | '(' :: rest =>
    let letters := rest.takeWhile isUpperAZ
    if 2 ≤ letters.length ∧ letters.length ≤ 4 then
      let r1 := rest.dropWhile isUpperAZ
      let sep := r1.takeWhile isSpaceDash
      match r1.dropWhile isSpaceDash with
      | d1 :: d2 :: d3 :: d4 :: ')' :: _ =>
          if d1.isDigit ∧ d2.isDigit ∧ d3.isDigit ∧ d4.isDigit then
            some (letters ++ sep ++ [d1, d2, d3, d4])
          else none
      | _ => none
    else none
  | _ => none

/-- `re.search` of the subject-code pattern: leftmost match. -/
def codeSearch : List Char → Option (List Char)
  | [] => none
  | l@(_ :: t) =>
    match codeMatchAt l with
    | some g => some g
    | none => codeSearch t

/-- One pass of `re.sub(r'\([^)]*\)', '', name)`: at `(` with a later `)`
drop through and past that `)`, otherwise keep the character.
Fuel-indexed; fuel `l.length` always suffices. -/
def removeParensGo : Nat → List Char → List Char
  | 0, l => l
  | _, [] => []
  | fuel + 1, '(' :: rest =>
    match rest.dropWhile (fun c => !(c = ')')) with
    | ')' :: r => removeParensGo fuel r
    | _ => '(' :: removeParensGo fuel rest
  | fuel + 1, c :: rest => c :: removeParensGo fuel rest

/-- `re.sub(r'\s+', ' ', s)`: collapse each maximal whitespace run to a
single space.  `prevSpace` records whether the previous character was part
of a whitespace run already rendered. -/
def collapseWsGo (prevSpace : Bool) : List Char → List Char
  | [] => []
  | c :: rest =>
    if isSpaceChar c then
      (if prevSpace then [] else [' ']) ++ collapseWsGo true rest
    else c :: collapseWsGo false rest

/-- `_parse_filename` (identical in both scrapers, `portal1_scraper.py`
lines 183-204): returns `(subject_name, subject_code, exam_type)`. -/
def parse_filename (filename : String) : String × String × String :=
  let name0 := replacePdf filename.data
  let isMakeup := subCharList "makeup".data (name0.map pyLowerChar)
  let exam_type := if isMakeup then "Makeup" else "Regular"
  let name := if isMakeup then subMakeupGo name0.length name0 else name0
  let subject_code :=
    match codeSearch name with
    | some g => String.mk (g.map (fun c => if c = ' ' then '-' else c))
    | none => ""
  let subject_name :=
    String.mk (collapseWsGo false (stripChars (removeParensGo name.length name)))
  (subject_name, subject_code, exam_type)

/-- `_parse_pdf_link` (`portal1_scraper.py` lines 108-147), applied to the
already-absolute, already-unquoted locator path (the `urljoin`/`unquote`
steps of the source produce exactly this path). -/
def parse_pdf_path (path : String) : Paper :=
  let parts := splitOnChar '/' path.data
  let filename := String.mk (parts.getLastD [])
  let psd := parse_filename filename
  { title := String.mk (replacePdf filename.data)
    subject_code := psd.2.1
    subject_name := psd.1
    year := extract_year path
    semester := extract_semester path
    branch := extract_branch portal1Branches path
    exam_type := psd.2.2
    pdf_url := path
    storage_url := ""
    portal := "portal1" }

/-! ## Claim C8: the worked extraction example -/

def c8Path : String :=
  ".../2019/Question Papers Dec 2018-Jan 2019/III Sem/Chemical/Thermodynamics (CHE-2104).pdf"

/-- Claim C8: for the locator
`.../2019/Question Papers Dec 2018-Jan 2019/III Sem/Chemical/Thermodynamics (CHE-2104).pdf`,
metadata extraction yields year `2019`, semester `Semester 3`, branch
`Chemical`, subject code `CHE-2104`, subject name `Thermodynamics` and
exam variant `Regular`. -/
theorem C8_extraction_example :
    (parse_pdf_path c8Path).year = "2019" ∧
    (parse_pdf_path c8Path).semester = "Semester 3" ∧
    (parse_pdf_path c8Path).branch = "Chemical" ∧
    (parse_pdf_path c8Path).subject_code = "CHE-2104" ∧
    (parse_pdf_path c8Path).subject_name = "Thermodynamics" ∧
    (parse_pdf_path c8Path).exam_type = "Regular" := by
  decide

/-! ## Claim C4: branch-enumeration order

Both branch enumerations list `"Computer"` (position 3) before
`"Computer and Communication"` (position 15), so the first substring match
for any text containing `Computer and Communication` is `"Computer"` —
exactly the misfire the design document says the ordering must prevent. -/

def c4Text : String := ".../III Sem/Computer and Communication/Networks (ICT-2103).pdf"

/-- Claim C4, evaluated at a failing input: the input contains
`Computer and Communication`, yet both `_extract_branch` implementations
return `Computer`, because the enumeration lists `Computer` first. -/
theorem C4_branch_order_misfire :
    strContains c4Text "Computer and Communication" = true ∧
    extract_branch portal1Branches c4Text = "Computer" ∧
    extract_branch portal2Branches c4Text = "Computer" := by
  decide

/-! ## Claim C7: the roman-numeral decoder -/

/-- Value of the head character, 0 for the empty list (the initial `prev`
of the `_roman_to_int` loop). -/
def headRomanValue : List Char → Nat
  | [] => 0
  | c :: _ => romanValue c

theorem romanFold_eq_subDecode (l : List Char) :
    l.reverse.foldl romanFoldStep (0, 0) = (subDecode l, headRomanValue l) := by
  induction l with
  | nil => rfl
  | cons c rest ih =>
    rw [List.reverse_cons, List.foldl_append, ih]
    cases rest with
    | nil =>
      simp [romanFoldStep, subDecode, headRomanValue]
    | cons d rest' =>
      simp only [romanFoldStep, subDecode, headRomanValue, List.foldl_cons,
        List.foldl_nil, Prod.mk.injEq]
      refine ⟨?_, trivial⟩
      split <;> ring

theorem map_pyUpperChar_fixed (l : List Char)
    (h : ∀ c ∈ l, c = 'I' ∨ c = 'V' ∨ c = 'X') : l.map pyUpperChar = l := by
  induction l with
  | nil => rfl
  | cons c rest ih =>
    have hc := h c (List.mem_cons_self c rest)
    have hrest := ih (fun d hd => h d (List.mem_cons_of_mem c hd))
    have hfix : pyUpperChar c = c := by
      rcases hc with h1 | h1 | h1 <;> subst h1 <;> decide
    simp [hfix, hrest]

/-- Claim C7: on every string over the letters I, V, X (hence on every
valid roman numeral over those letters), `_roman_to_int` returns exactly
the integer given by standard subtractive decoding (I=1, V=5, X=10; a
smaller-value letter preceding a larger one subtracts, otherwise adds). -/
theorem C7_roman_decoder (s : String)
    (h : ∀ c ∈ s.data, c = 'I' ∨ c = 'V' ∨ c = 'X') :
    roman_to_int s = subDecode s.data := by
  unfold roman_to_int
  rw [map_pyUpperChar_fixed s.data h, romanFold_eq_subDecode]

/-- Witness for C7 at the numerals of the spec's examples: `XIV` decodes
to 14 (and concretely `III` to 3, `IX` to 9). -/
theorem C7_roman_decoder_witness :
    (∀ c ∈ ("XIV" : String).data, c = 'I' ∨ c = 'V' ∨ c = 'X') ∧
    roman_to_int "XIV" = subDecode ("XIV" : String).data ∧
    subDecode ("XIV" : String).data = 14 ∧
    roman_to_int "III" = 3 ∧ roman_to_int "IX" = 9 :=
  ⟨by decide, C7_roman_decoder "XIV" (by decide), by decide, by decide, by decide⟩

/-! ## Deduplication Gate (`firebase_service.py` lines 195-225)

The Firestore collection is modelled as a list of stored `Paper` records; a
chain of `where('field', '==', value)` filters intersects conjunctively,
and `limit(1).stream()` is non-empty exactly when some stored record
passes every filter.  Python truthiness of a string argument (`if not
subject_code`, `if semester:`, `if exam_type:`) is non-emptiness; the
`exam_type=None` default behaves like the empty string there. -/

/-- `paper_exists`: exact source-locator check. -/
def paper_exists (store : List Paper) (pdf_url : String) : Bool :=
  store.any (fun p => decide (p.pdf_url = pdf_url))

/-- `paper_exists_by_metadata`: the semantic-fingerprint check.  Filters
on `semester` and `exam_type` are added to the query only when the
candidate's value is non-empty. -/
def paper_exists_by_metadata (store : List Paper)
    (subject_code year semester exam_type : String) : Bool :=
  if subject_code = "" ∨ year = "" then false
  else store.any (fun p =>
    (decide (p.subject_code = subject_code) && decide (p.year = year)) &&
    (decide (semester = "") || decide (p.semester = semester)) &&
    (decide (exam_type = "") || decide (p.exam_type = exam_type)))

/-- A stored record with the candidate's subject code and year but with an
empty semester field. -/
def c3Stored : Paper :=
  ⟨"Thermodynamics (CHE-2104)", "CHE-2104", "Thermodynamics", "2019", "",
   "Chemical", "Regular", "https://portal/old/Thermodynamics.pdf", "", "portal1"⟩

/-- Counterexample to claim C3: the candidate provides subject code
`CHE-2104`, year `2019` and semester `Semester 3`; the store holds a
record with that subject code and year and an empty semester, yet the
semantic-fingerprint check does not classify the candidate as a duplicate:
the stored empty semester fails the equality filter on the candidate's
semester instead of acting as a wildcard. -/
theorem C3_counterexample :
    paper_exists_by_metadata [c3Stored] "CHE-2104" "2019" "Semester 3" "Regular" = false := by
  decide

/-- Claim C3 as amended: wildcarding is candidate-side only.  The
semantic-fingerprint check succeeds exactly when subject code and year are
non-empty and some stored record matches the subject code and the year
exactly, the semester exactly whenever the candidate provides one, and the
exam variant exactly whenever the candidate provides one; a candidate's
empty semester or exam variant is not compared, but a stored record's
empty semester does fail to match a candidate's specified semester. -/
theorem C3_candidate_side_wildcards (store : List Paper)
    (subject_code year semester exam_type : String) :
    paper_exists_by_metadata store subject_code year semester exam_type = true ↔
      (subject_code ≠ "" ∧ year ≠ "" ∧ ∃ p ∈ store,
        p.subject_code = subject_code ∧ p.year = year ∧
        (semester ≠ "" → p.semester = semester) ∧
        (exam_type ≠ "" → p.exam_type = exam_type)) := by
  unfold paper_exists_by_metadata
  split
  case isTrue h =>
    simp only [Bool.false_eq_true, false_iff]
    rintro ⟨h1, h2, -⟩
    rcases h with h | h
    · exact h1 h
    · exact h2 h
  case isFalse h =>
    rw [not_or] at h
    rw [List.any_eq_true]
    constructor
    · rintro ⟨p, hp, hb⟩
      simp only [Bool.and_eq_true, Bool.or_eq_true, decide_eq_true_eq] at hb
      exact ⟨h.1, h.2, p, hp, hb.1.1.1, hb.1.1.2,
        fun hs => hb.1.2.resolve_left hs, fun he => hb.2.resolve_left he⟩
    · rintro ⟨-, -, p, hp, h1, h2, h3, h4⟩
      refine ⟨p, hp, ?_⟩
      simp only [Bool.and_eq_true, Bool.or_eq_true, decide_eq_true_eq]
      refine ⟨⟨⟨h1, h2⟩, ?_⟩, ?_⟩
      · by_cases hs : semester = ""
        · exact Or.inl hs
        · exact Or.inr (h3 hs)
      · by_cases he : exam_type = ""
        · exact Or.inl he
        · exact Or.inr (h4 he)

/-! ## Coordinator processing loop (`routes/scraper.py`, `run_scrape`)

The shared `scrape_status` dict is the state.  Collaborator calls inside
the loop (`paper_exists`, `paper_exists_by_metadata`, `upload_pdf`,
`add_paper`) are modelled by per-iteration oracles; `Except.error e`
models the call raising an exception with text `e`.  The shared
stop-requested cell can be flipped concurrently by the stop route, so each
read of `scrape_status['stop_requested']` is an oracle value. -/

structure ScrapeStatus where
  is_running : Bool
  stop_requested : Bool
  portal : Option String
  progress : Nat
  skipped : Nat
  total : Nat
  errors : List String
  message : String
deriving DecidableEq, Repr

/-- Outcomes of the collaborator calls made while processing one paper. -/
structure IterBehavior where
  urlCheck : Except String Bool
  metaCheck : Except String Bool
  uploadRes : Except String String
  addRes : Except String Unit

/-- The body of the `for paper in papers_generator` loop after the stop
check (`routes/scraper.py` lines 72-110): the inner `try` catches any
exception from the dedup checks or `add_paper` and appends to the error
log; the upload sub-`try` only appends its own error.  Returns the new
status and the new local `count` and `skipped`. -/
def processPaper (upload : Bool) (b : IterBehavior) (paper : Paper)
    (count skipped : Nat) (st : ScrapeStatus) : ScrapeStatus × Nat × Nat :=
  match b.urlCheck with
  | .error e =>
    ({st with errors := st.errors ++ ["Error processing " ++ paper.title ++ ": " ++ e]},
     count, skipped)
  | .ok true =>
    ({st with
      message := "Skipping (URL exists): " ++ paper.title
      skipped := skipped + 1}, count, skipped + 1)
  | .ok false =>
    match (if paper.subject_code ≠ "" then some b.metaCheck else none) with
    | some (.error e) =>
      ({st with errors := st.errors ++ ["Error processing " ++ paper.title ++ ": " ++ e]},
       count, skipped)
    | some (.ok true) =>
      ({st with
        message := "Skipping (metadata exists): " ++ paper.title
        skipped := skipped + 1}, count, skipped + 1)
    | _ =>
      let st1 :=
        if upload then
          match b.uploadRes with
          | .ok _ => {st with message := "Uploaded: " ++ paper.title}
          | .error e =>
            {st with errors := st.errors ++ ["Upload failed for " ++ paper.title ++ ": " ++ e]}
        else st
      match b.addRes with
      | .error e =>
        ({st1 with errors := st1.errors ++ ["Error processing " ++ paper.title ++ ": " ++ e]},
         count, skipped)
      | .ok _ =>
        ({st1 with progress := count + 1, message := "Saved: " ++ paper.title},
         count + 1, skipped)

/-- The consuming loop (lines 66-110).  `stopRead k` is the value read
from the shared stop-requested cell at the top of iteration `k`.  The
final `Bool` records whether the loop exited via the stop `break` (in
which case the generator is never pulled again). -/
def scrapeLoop (upload : Bool) (stopRead : Nat → Bool) (behav : Nat → IterBehavior) :
    List Paper → Nat → Nat → Nat → ScrapeStatus → ScrapeStatus × Nat × Nat × Bool
  | [], _, count, skipped, st => (st, count, skipped, false)
  | p :: ps, k, count, skipped, st =>
    if stopRead k then
      ({st with message := ("Stopped! Scraped " ++ toString count ++ " papers, skipped "
          ++ toString skipped ++ " duplicates.")}, count, skipped, true)
    else
      let r := processPaper upload (behav k) p count skipped st
      scrapeLoop upload stopRead behav ps (k + 1) r.2.1 r.2.2 r.1

/-- `run_scrape` (lines 22-122).  The generator is modelled as the list of
papers it yields followed by its tail behaviour: `genTail = some e` means
the pull after the last yielded paper raises an exception with text `e`
(this models a fatal harvester error at any point, by taking `papers` to
be the prefix yielded before the error); `none` means normal exhaustion.
`stopReadEnd` is the value read by the `if not
scrape_status['stop_requested']` on line 112.  The `try/except/finally`
structure is reproduced exactly: the unknown-portal early return happens
inside the `try`, and the `finally` on lines 120-122 clears both flags on
every path. -/
def run_scrape (portal : String) (workers : Nat) (upload : Bool)
    (stopRead : Nat → Bool) (behav : Nat → IterBehavior) (papers : List Paper)
    (genTail : Option String) (stopReadEnd : Bool) (st0 : ScrapeStatus) : ScrapeStatus :=
  let st1 : ScrapeStatus :=
    {st0 with
      is_running := true
      stop_requested := false
      portal := some portal
      progress := 0
      skipped := 0
      errors := []
      message := ("Starting scrape for " ++ portal ++ " with " ++ toString workers
        ++ " workers...")}
  let stBody :=
    if portal ≠ "portal1" ∧ portal ≠ "portal2" then
      {st1 with message := "Unknown portal: " ++ portal, is_running := false}
    else
      match scrapeLoop upload stopRead behav papers 0 0 0 st1 with
      | (st2, count, skipped, stoppedEarly) =>
        if stoppedEarly = false ∧ genTail.isSome then
          match genTail with
          | some e =>
            {st2 with message := "Scrape failed: " ++ e, errors := st2.errors ++ [e]}
          | none => st2
        else
          let st3 :=
            if stopReadEnd = false then
              {st2 with message := ("Completed! Scraped " ++ toString count
                ++ " new papers, skipped " ++ toString skipped ++ " duplicates.")}
            else st2
          {st3 with total := count}
  {stBody with is_running := false, stop_requested := false}

/-- Claim C5: for every run of the Coordinator's processing loop — any
portal string, any oracle behaviour, any yielded stream, whether the
stream ends by exhaustion, by the stop break, or by an unrecoverable
harvester exception, and from any prior status — the `finally` block
leaves the running flag and the stop-requested flag both false. -/
theorem C5_flags_cleared (portal : String) (workers : Nat) (upload : Bool)
    (stopRead : Nat → Bool) (behav : Nat → IterBehavior) (papers : List Paper)
    (genTail : Option String) (stopReadEnd : Bool) (st0 : ScrapeStatus) :
    (run_scrape portal workers upload stopRead behav papers genTail stopReadEnd st0).is_running = false ∧
    (run_scrape portal workers upload stopRead behav papers genTail stopReadEnd st0).stop_requested = false :=
  ⟨rfl, rfl⟩

/-! ## StartJob and the running-flag race
(`start_scrape`, `routes/scraper.py` lines 136-170; `run_scrape` line 41)

`start_scrape` reads `scrape_status['is_running']` in the HTTP thread and,
when it is false, spawns a background thread and returns `Accepted`
immediately; the running flag is set to true only later, by the first
statement of `run_scrape` executing inside the spawned thread.  Two
concurrent `start_scrape` calls are modelled as an interleaving of four
atomic steps: each call's check-and-spawn, and each spawned thread's
flag-set. -/

inductive StartResult
  | accepted
  | alreadyRunning
deriving DecidableEq, Repr

structure TwoStartState where
  is_running : Bool
  r1 : Option StartResult
  t1 : Bool
  r2 : Option StartResult
  t2 : Bool
deriving DecidableEq, Repr

inductive StartAct
  | check1 | set1 | check2 | set2
deriving DecidableEq, Repr

/-- One atomic step.  `check i` is call `i`'s `if scrape_status['is_running']`
test (lines 138-143) together with `thread.start()` and the HTTP response;
`set i` is the spawned thread executing `scrape_status['is_running'] = True`
(line 41).  A step of a call that already responded, or of a thread that
was never spawned or has already run, changes nothing. -/
def startStep (s : TwoStartState) (a : StartAct) : TwoStartState :=
  match a with
  | .check1 =>
    match s.r1 with
    | some _ => s
    | none =>
      if s.is_running then {s with r1 := some .alreadyRunning}
      else {s with r1 := some .accepted, t1 := true}
  | .set1 => if s.t1 then {s with is_running := true, t1 := false} else s
  | .check2 =>
    match s.r2 with
    | some _ => s
    | none =>
      if s.is_running then {s with r2 := some .alreadyRunning}
      else {s with r2 := some .accepted, t2 := true}
  | .set2 => if s.t2 then {s with is_running := true, t2 := false} else s

def startRun (sched : List StartAct) : TwoStartState :=
  sched.foldl startStep ⟨false, none, false, none, false⟩

/-- Claim C1, evaluated at the failing interleaving: both simultaneous
`StartJob` calls pass the running-flag check before either spawned thread
has set the flag, so both return `Accepted` — the check and the set are
not atomic, and two jobs begin concurrently. -/
theorem C1_both_accepted :
    (startRun [.check1, .check2, .set1, .set2]).r1 = some .accepted ∧
    (startRun [.check1, .check2, .set1, .set2]).r2 = some .accepted := by
  decide

/-! ## Flat-List Harvester (`portal1_scraper.py` lines 54-106)

The concurrent pipeline `_scrape_concurrent` is modelled as follows.  The
shared `threading.Event` stop flag is monotone (set once, never cleared
during a run), so it is characterised by a threshold `T : Option Nat` over
the generator thread's poll instants: the poll at instant `t` observes the
flag iff `T = some n` with `n ≤ t`.  Each worker's own read of the flag
inside `process_link` happens at an uncontrolled moment and is therefore
an arbitrary oracle `wread : α → Bool`.  `as_completed` returns futures in
an uncontrolled completion order, modelled by an arbitrary per-batch
reordering `reorder : Nat → List (Option Paper) → List (Option Paper)`
(constrained to a permutation only where a claim needs it).  `parse`
models `_parse_pdf_link` including its `try/except`: an exception or a
missing href yields `none`. -/

def obsStop (T : Option Nat) (t : Nat) : Bool :=
  match T with
  | none => false
  | some n => decide (n ≤ t)

/-- The `links[i:i + batch_size]` slices of the
`for i in range(0, len(pdf_links), batch_size)` loop, fuel-indexed
(fuel `l.length` suffices whenever `bs ≥ 1`; in the source
`batch_size = max_workers * 2 ≥ 2`). -/
def chunkGo {α : Type} (bs : Nat) : Nat → List α → List (List α)
  | _, [] => []
  | 0, l => [l]
  | fuel + 1, l => l.take bs :: chunkGo bs fuel (l.drop bs)

def chunkList {α : Type} (bs : Nat) (l : List α) : List (List α) :=
  chunkGo bs l.length l

/-- `process_link` (lines 75-82): the worker checks the stop event, then
parses; any parse exception was already folded into `parse` returning
`none`. -/
def process_link {α : Type} (wread : Bool) (parse : α → Option Paper) (l : α) : Option Paper :=
  if wread then none else parse l

inductive P1Event
  | dispatch (i : Nat)
  | yielded (p : Paper)
deriving DecidableEq, Repr

/-- Papers yielded in an event trace. -/
def yieldsOf (tr : List (Nat × P1Event)) : List Paper :=
  tr.filterMap (fun e =>
    match e.2 with
    | P1Event.yielded p => some p
    | _ => none)

/-- The `for future in as_completed(futures)` loop (lines 97-103):
before each completed result the generator thread polls the stop flag and
`break`s if it is set, discarding the remaining completed and in-flight
results of the batch; otherwise a non-`None` result is yielded.  Events
are stamped with the instant of the poll that guarded them; the returned
`Nat` is the next poll instant. -/
def innerYields (T : Option Nat) : List (Option Paper) → Nat → List (Nat × P1Event) × Nat
  | [], t => ([], t)
  | r :: rs, t =>
    if obsStop T t then ([], t + 1)
    else
      match r with
      | some p =>
        let rec2 := innerYields T rs (t + 1)
        ((t, P1Event.yielded p) :: rec2.1, rec2.2)
      | none => innerYields T rs (t + 1)

/-- The outer batch loop (lines 87-106): poll the stop flag before
dispatching each batch and `break` if it is set; otherwise dispatch the
batch to the pool (all workers run `process_link`; completion order is
`reorder`) and run the `as_completed` consumption loop. -/
def outerRun {α : Type} (parse : α → Option Paper) (wread : α → Bool)
    (reorder : Nat → List (Option Paper) → List (Option Paper)) (T : Option Nat) :
    List (List α) → Nat → Nat → List (Nat × P1Event)
  | [], _, _ => []
  | b :: bs, i, t =>
    if obsStop T t then []
    else
      let results := reorder i (b.map (fun l => process_link (wread l) parse l))
      let inner := innerYields T results (t + 1)
      (t, P1Event.dispatch i) :: inner.1 ++ outerRun parse wread reorder T bs (i + 1) inner.2

/-- `_scrape_concurrent` (lines 71-106). -/
def scrape_concurrent {α : Type} (parse : α → Option Paper) (wread : α → Bool)
    (reorder : Nat → List (Option Paper) → List (Option Paper)) (T : Option Nat)
    (max_workers : Nat) (links : List α) : List (Nat × P1Event) :=
  outerRun parse wread reorder T (chunkList (max_workers * 2) links) 0 0

/-- The sequential per-link loop of `scrape_all` (lines 58-69): poll the
stop flag before each link, parse, and yield non-`None` results. -/
def scrape_sequential {α : Type} (parse : α → Option Paper) (T : Option Nat) :
    List α → Nat → List Paper
  | [], _ => []
  | l :: ls, t =>
    if obsStop T t then []
    else
      match parse l with
      | some p => p :: scrape_sequential parse T ls (t + 1)
      | none => scrape_sequential parse T ls (t + 1)

/-! ## Claim C6: nothing is dispatched or yielded after the stop flag is
observed -/

theorem innerYields_stamps_unset (T : Option Nat) (rs : List (Option Paper)) (t : Nat) :
    ∀ e ∈ (innerYields T rs t).1, obsStop T e.1 = false := by
  induction rs generalizing t with
  | nil => intro e he; simp [innerYields] at he
  | cons r rs ih =>
    intro e he
    by_cases hobs : obsStop T t = true
    · simp [innerYields, hobs] at he
    · rw [Bool.not_eq_true] at hobs
      cases r with
      | some p =>
        simp only [innerYields, hobs, Bool.false_eq_true, if_false] at he
        rcases List.mem_cons.mp he with h | h
        · subst h; exact hobs
        · exact ih (t + 1) e h
      | none =>
        simp only [innerYields, hobs, Bool.false_eq_true, if_false] at he
        exact ih (t + 1) e he

theorem outerRun_stamps_unset {α : Type} (parse : α → Option Paper) (wread : α → Bool)
    (reorder : Nat → List (Option Paper) → List (Option Paper)) (T : Option Nat)
    (bs : List (List α)) (i t : Nat) :
    ∀ e ∈ outerRun parse wread reorder T bs i t, obsStop T e.1 = false := by
  induction bs generalizing i t with
  | nil => intro e he; simp [outerRun] at he
  | cons b bs ih =>
    intro e he
    by_cases hobs : obsStop T t = true
    · simp [outerRun, hobs] at he
    · rw [Bool.not_eq_true] at hobs
      simp only [outerRun, hobs, Bool.false_eq_true, if_false] at he
      rcases List.mem_cons.mp he with h | h
      · subst h; exact hobs
      · rcases List.mem_append.mp h with h2 | h2
        · exact innerYields_stamps_unset T _ (t + 1) e h2
        · exact ih (i + 1) _ e h2

/-- Claim C6: in the Flat-List Harvester's concurrent pipeline, every
batch dispatch and every yielded Record is guarded by a poll of the stop
flag that observed it unset; since the flag is monotone, once any poll
observes the flag no further batch is dispatched and no further Record is
yielded — in-flight results of the current batch are discarded by the
`break` (they never appear in the trace past the observing poll). -/
theorem C6_stop_ends_stream {α : Type} (parse : α → Option Paper) (wread : α → Bool)
    (reorder : Nat → List (Option Paper) → List (Option Paper)) (T : Option Nat)
    (max_workers : Nat) (links : List α) :
    ∀ e ∈ scrape_concurrent parse wread reorder T max_workers links,
      obsStop T e.1 = false := by
  intro e he
  exact outerRun_stamps_unset parse wread reorder T _ 0 0 e he

def c6Paper : Paper :=
  ⟨"P", "", "P", "2020", "", "", "Regular", "u", "", "portal1"⟩

/-- Witness for C6: with six links, one worker (batch size 2) and the stop
flag set from poll instant 2 on, the trace contains the yield stamped 1,
and the theorem instantiated there gives `obsStop (some 2) 1 = false`. -/
theorem C6_stop_ends_stream_witness : obsStop (some 2) 1 = false :=
  C6_stop_ends_stream (fun _ : Nat => some c6Paper) (fun _ => false) (fun _ l => l)
    (some 2) 1 [0, 1, 2, 3, 4, 5] (1, P1Event.yielded c6Paper) (by decide)

/-! ## Claim C10: without cancellation, the concurrent pipeline yields the
same multiset as the sequential per-link loop -/

theorem yieldsOf_append (tr1 tr2 : List (Nat × P1Event)) :
    yieldsOf (tr1 ++ tr2) = yieldsOf tr1 ++ yieldsOf tr2 :=
  List.filterMap_append tr1 tr2 _

theorem yieldsOf_cons_dispatch (t i : Nat) (tr : List (Nat × P1Event)) :
    yieldsOf ((t, P1Event.dispatch i) :: tr) = yieldsOf tr := rfl

theorem yieldsOf_cons_yielded (t : Nat) (p : Paper) (tr : List (Nat × P1Event)) :
    yieldsOf ((t, P1Event.yielded p) :: tr) = p :: yieldsOf tr := rfl

theorem chunkGo_flatten {α : Type} (bs fuel : Nat) (l : List α) :
    (chunkGo bs fuel l).flatten = l := by
  induction fuel generalizing l with
  | zero => cases l <;> simp [chunkGo]
  | succ fuel ih =>
    cases l with
    | nil => simp [chunkGo]
    | cons c cs =>
      rw [chunkGo, List.flatten_cons, ih, List.take_append_drop]
      simp

theorem scrape_sequential_none {α : Type} (parse : α → Option Paper)
    (ls : List α) (t : Nat) :
    scrape_sequential parse none ls t = ls.filterMap parse := by
  induction ls generalizing t with
  | nil => rfl
  | cons l ls ih =>
    simp only [scrape_sequential, obsStop, Bool.false_eq_true, if_false]
    cases hp : parse l <;> simp [hp, ih (t + 1)]

theorem innerYields_none_yields (rs : List (Option Paper)) (t : Nat) :
    yieldsOf (innerYields none rs t).1 = rs.filterMap id := by
  induction rs generalizing t with
  | nil => rfl
  | cons r rs ih =>
    cases r with
    | some p =>
      simp only [innerYields, obsStop, Bool.false_eq_true, if_false]
      rw [yieldsOf_cons_yielded, ih (t + 1)]
      rfl
    | none =>
      simp only [innerYields, obsStop, Bool.false_eq_true, if_false]
      rw [ih (t + 1)]
      rfl

theorem flatten_map_filterMap {α : Type} (parse : α → Option Paper) (L : List (List α)) :
    (L.map (fun b => b.filterMap parse)).flatten = L.flatten.filterMap parse := by
  induction L with
  | nil => rfl
  | cons b L ih =>
    rw [List.map_cons, List.flatten_cons, List.flatten_cons,
      List.filterMap_append, ih]

theorem outerRun_none_perm {α : Type} (parse : α → Option Paper)
    (reorder : Nat → List (Option Paper) → List (Option Paper))
    (hre : ∀ i l, (reorder i l).Perm l)
    (bs : List (List α)) (i t : Nat) :
    (yieldsOf (outerRun parse (fun _ => false) reorder none bs i t)).Perm
      ((bs.map (fun b => b.filterMap parse)).flatten) := by
  induction bs generalizing i t with
  | nil => simp [outerRun, yieldsOf]
  | cons b bs ih =>
    simp only [outerRun, obsStop, Bool.false_eq_true, if_false, process_link,
      List.map_cons, List.flatten_cons, yieldsOf_cons_dispatch, yieldsOf_append,
      innerYields_none_yields]
    refine List.Perm.append ?_ (ih (i + 1) _)
    have h1 : ((reorder i (b.map (fun l => parse l))).filterMap id).Perm
        ((b.map (fun l => parse l)).filterMap id) :=
      (hre i (b.map (fun l => parse l))).filterMap id
    rw [List.filterMap_map] at h1
    simpa using h1

/-- Claim C10: when cancellation is never requested (the stop flag is
never set, so the generator-thread polls and every worker read observe it
unset), the Flat-List Harvester's concurrent batch pipeline yields a
permutation — the same multiset — of what the sequential per-link loop
yields, for every list of links, every completion order of each batch's
futures, and every worker bound: both are per-link applications of the
same extraction function. -/
theorem C10_concurrent_matches_sequential {α : Type} (parse : α → Option Paper)
    (reorder : Nat → List (Option Paper) → List (Option Paper))
    (hre : ∀ i l, (reorder i l).Perm l) (max_workers : Nat) (links : List α) :
    (yieldsOf (scrape_concurrent parse (fun _ => false) reorder none max_workers links)).Perm
      (scrape_sequential parse none links 0) := by
  rw [scrape_sequential_none]
  have h1 := outerRun_none_perm parse reorder hre (chunkList (max_workers * 2) links) 0 0
  rw [flatten_map_filterMap, chunkList, chunkGo_flatten] at h1
  exact h1

def c10Parse (n : Nat) : Option Paper :=
  if n % 2 = 0 then
    some ⟨"P" ++ toString n, "", "P", "2020", "", "", "Regular", toString n, "", "portal1"⟩
  else none

/-- Witness for C10 at a concrete input: five links, batch size 2,
reversed completion order in every batch. -/
theorem C10_concurrent_matches_sequential_witness :
    (yieldsOf (scrape_concurrent c10Parse (fun _ => false) (fun _ l => l.reverse) none 1
      [0, 1, 2, 3, 4])).Perm (scrape_sequential c10Parse none [0, 1, 2, 3, 4] 0) :=
  C10_concurrent_matches_sequential c10Parse (fun _ l => l.reverse)
    (fun _ l => l.reverse_perm) 1 [0, 1, 2, 3, 4]

/-! ## Tree Harvester branch level (`portal2_scraper.py` lines 157-232,
340-369)

`_scrape_branch_level` visits the branch-level page: it yields the PDFs at
this level, then for each folder clicks in (`_safe_click_folder`), yields
that folder's PDFs, visits up to 30 of its subfolders when there are fewer
than 50 of them, and calls `_safe_go_back` once per successful subfolder
click (line 220) and once per successful folder click (line 222).

Model: the remote listings are a fixed two-level page structure (exactly
the depth the code explores).  `_safe_click_folder` outcomes come from a
click oracle indexed by a call counter; the monotone stop flag is the
threshold `obsStop` over a poll clock, polled exactly where the source
polls `_should_stop`; `_create_paper` is the real extraction composition
(its `try/except` never fires on well-formed `PdfInfo` inputs, which the
model's typed inputs always are).  A `yield` statement is the only point
of `_scrape_branch_level` at which an exception can be delivered (every
helper it calls catches its own exceptions): `interruptAt = some n` means
the consumer closes or throws into the generator at the `n`-th executed
yield (e.g. `GeneratorExit` when `run_scrape` breaks out of its loop), so
the generator's frame unwinds from that yield with no handler — the
`aborted` flag propagates the unwind.  A `_safe_go_back` call is counted
as one return-to-parent operation. -/

structure PdfInfo where
  text : String
  url : String
deriving DecidableEq, Repr

structure SubFolder where
  name : String
  pdfs : List PdfInfo
deriving DecidableEq, Repr

structure BFolder where
  name : String
  pdfs : List PdfInfo
  subs : List SubFolder
deriving DecidableEq, Repr

structure BranchPage where
  pdfs : List PdfInfo
  folders : List BFolder
deriving DecidableEq, Repr

/-- `_should_skip_folder` (lines 224-232). -/
def skip_patterns : List String :=
  ["SOP", "Standard Operating", "Guidelines", "Manual",
   "Template", "Format", "Instructions", "Help",
   "Elsevier", "Open Access", "Copyright"]

def should_skip_folder (name : String) : Bool :=
  let nameLower := name.data.map pyLowerChar
  skip_patterns.any (fun pat => subCharList (pat.data.map pyLowerChar) nameLower)

/-- `_create_paper` (lines 340-369): `_parse_filename` on the displayed
text, `_extract_semester(folder1 + " " + folder2)`,
`_extract_branch(folder1 + " " + folder2 + " " + filename)`. -/
def create_paper (pdf : PdfInfo) (year session folder1 folder2 : String) : Paper :=
  let psd := parse_filename pdf.text
  { title := String.mk (replacePdf pdf.text.data)
    subject_code := psd.2.1
    subject_name := psd.1
    year := year
    semester := extract_semester (folder1 ++ " " ++ folder2)
    branch := extract_branch portal2Branches (folder1 ++ " " ++ folder2 ++ " " ++ pdf.text)
    exam_type := psd.2.2
    pdf_url := pdf.url
    storage_url := ""
    portal := "portal2" }

inductive NavEv
  | descend (name : String)
  | back
  | yielded (p : Paper)
deriving DecidableEq, Repr

structure BLState where
  t : Nat
  c : Nat
  y : Nat
  aborted : Bool
deriving DecidableEq, Repr

structure BLCtx where
  T : Option Nat
  clickOk : Nat → Bool
  interruptAt : Option Nat
  year : String
  session : String

def countDescend (tr : List NavEv) : Nat :=
  tr.countP (fun e =>
    match e with
    | NavEv.descend _ => true
    | _ => false)

def countBack (tr : List NavEv) : Nat :=
  tr.countP (fun e =>
    match e with
    | NavEv.back => true
    | _ => false)

def descendNames (tr : List NavEv) : List String :=
  tr.filterMap (fun e =>
    match e with
    | NavEv.descend n => some n
    | _ => none)

/-- Deliver one `yield`: the yield count advances; if the interrupt oracle
designates this yield, an exception is raised at it on resume and the
frame starts unwinding. -/
def yieldStep (ctx : BLCtx) (s : BLState) : BLState × Bool :=
  let interrupted := decide (ctx.interruptAt = some s.y)
  ({s with y := s.y + 1, aborted := s.aborted || interrupted}, interrupted)

/-- A `for pdf_info in pdf_links` loop whose stop check `break`s
(lines 196-201 and 213-218): poll, yield, continue. -/
def pdfLoopBrk (ctx : BLCtx) (mk : PdfInfo → Paper) :
    List PdfInfo → BLState → List NavEv × BLState
  | [], s => ([], s)
  | p :: ps, s =>
    if s.aborted then ([], s)
    else if obsStop ctx.T s.t then ([], {s with t := s.t + 1})
    else
      let s1 : BLState := {s with t := s.t + 1}
      let ys := yieldStep ctx s1
      if ys.2 then ([NavEv.yielded (mk p)], ys.1)
      else
        let rest := pdfLoopBrk ctx mk ps ys.1
        (NavEv.yielded (mk p) :: rest.1, rest.2)

/-- The top-level PDF loop (lines 166-171), whose stop check `return`s
from the whole visit; the `Bool` reports that early return (or an
unwinding interrupt), which skips the folder loop. -/
def pdfLoopRet (ctx : BLCtx) (mk : PdfInfo → Paper) :
    List PdfInfo → BLState → List NavEv × BLState × Bool
  | [], s => ([], s, false)
  | p :: ps, s =>
    if s.aborted then ([], s, true)
    else if obsStop ctx.T s.t then ([], {s with t := s.t + 1}, true)
    else
      let s1 : BLState := {s with t := s.t + 1}
      let ys := yieldStep ctx s1
      if ys.2 then ([NavEv.yielded (mk p)], ys.1, true)
      else
        let rest := pdfLoopRet ctx mk ps ys.1
        (NavEv.yielded (mk p) :: rest.1, rest.2.1, rest.2.2)

/-- The `for sub_folder in sub_folders[:30]` loop (lines 205-220): poll
(`break` on stop), click (skip the subfolder if the click fails), yield
its PDFs, then `_safe_go_back` (line 220) — which runs after a stop
`break` of the inner PDF loop, but not when an exception is unwinding the
frame. -/
def subLoop (ctx : BLCtx) (fname : String) :
    List SubFolder → BLState → List NavEv × BLState
  | [], s => ([], s)
  | sf :: sfs, s =>
    if s.aborted then ([], s)
    else if obsStop ctx.T s.t then ([], {s with t := s.t + 1})
    else
      let s1 : BLState := {s with t := s.t + 1}
      let ok := ctx.clickOk s1.c
      let s2 : BLState := {s1 with c := s1.c + 1}
      if !ok then subLoop ctx fname sfs s2
      else
        let inner := pdfLoopBrk ctx
          (fun p => create_paper p ctx.year ctx.session fname sf.name) sf.pdfs s2
        if inner.2.aborted then (NavEv.descend sf.name :: inner.1, inner.2)
        else
          let rest := subLoop ctx fname sfs inner.2
          (NavEv.descend sf.name :: inner.1 ++ NavEv.back :: rest.1, rest.2)

/-- The `for folder_info in folders` loop (lines 174-222): poll (`return`
on stop), skip-list check, click (skip the folder if the click fails),
yield the folder's PDFs, visit up to 30 subfolders when there are fewer
than 50 (line 203), then `_safe_go_back` (line 222) — again skipped only
when an exception is unwinding. -/
def folderLoop (ctx : BLCtx) : List BFolder → BLState → List NavEv × BLState
  | [], s => ([], s)
  | f :: fs, s =>
    if s.aborted then ([], s)
    else if obsStop ctx.T s.t then ([], {s with t := s.t + 1})
    else
      let s1 : BLState := {s with t := s.t + 1}
      if should_skip_folder f.name then folderLoop ctx fs s1
      else
        let ok := ctx.clickOk s1.c
        let s2 : BLState := {s1 with c := s1.c + 1}
        if !ok then folderLoop ctx fs s2
        else
          let mid := pdfLoopBrk ctx
            (fun p => create_paper p ctx.year ctx.session f.name "") f.pdfs s2
          if mid.2.aborted then (NavEv.descend f.name :: mid.1, mid.2)
          else
            let sub :=
              if f.subs ≠ [] ∧ f.subs.length < 50 then
                subLoop ctx f.name (f.subs.take 30) mid.2
              else ([], mid.2)
            if sub.2.aborted then (NavEv.descend f.name :: mid.1 ++ sub.1, sub.2)
            else
              let rest := folderLoop ctx fs sub.2
              (NavEv.descend f.name :: mid.1 ++ sub.1 ++ NavEv.back :: rest.1, rest.2)

/-- `_scrape_branch_level` (lines 157-222). -/
def scrape_branch_level (ctx : BLCtx) (page : BranchPage) (s : BLState) :
    List NavEv × BLState :=
  if s.aborted then ([], s)
  else if obsStop ctx.T s.t then ([], {s with t := s.t + 1})
  else
    let s1 : BLState := {s with t := s.t + 1}
    let top := pdfLoopRet ctx
      (fun p => create_paper p ctx.year ctx.session "" "") page.pdfs s1
    if top.2.2 then (top.1, top.2.1)
    else
      let rest := folderLoop ctx page.folders top.2.1
      (top.1 ++ rest.1, rest.2)

/-! ## Trace-counting helpers -/

theorem countDescend_nil : countDescend [] = 0 := rfl

theorem countBack_nil : countBack [] = 0 := rfl

theorem descendNames_nil : descendNames [] = [] := rfl

theorem countDescend_cons_descend (n : String) (tr : List NavEv) :
    countDescend (NavEv.descend n :: tr) = countDescend tr + 1 := by
  simp [countDescend, List.countP_cons]

theorem countDescend_cons_back (tr : List NavEv) :
    countDescend (NavEv.back :: tr) = countDescend tr := by
  simp [countDescend, List.countP_cons]

theorem countDescend_cons_yielded (p : Paper) (tr : List NavEv) :
    countDescend (NavEv.yielded p :: tr) = countDescend tr := by
  simp [countDescend, List.countP_cons]

theorem countBack_cons_descend (n : String) (tr : List NavEv) :
    countBack (NavEv.descend n :: tr) = countBack tr := by
  simp [countBack, List.countP_cons]

theorem countBack_cons_back (tr : List NavEv) :
    countBack (NavEv.back :: tr) = countBack tr + 1 := by
  simp [countBack, List.countP_cons]

theorem countBack_cons_yielded (p : Paper) (tr : List NavEv) :
    countBack (NavEv.yielded p :: tr) = countBack tr := by
  simp [countBack, List.countP_cons]

theorem countDescend_append (tr1 tr2 : List NavEv) :
    countDescend (tr1 ++ tr2) = countDescend tr1 + countDescend tr2 := by
  simp [countDescend, List.countP_append]

theorem countBack_append (tr1 tr2 : List NavEv) :
    countBack (tr1 ++ tr2) = countBack tr1 + countBack tr2 := by
  simp [countBack, List.countP_append]

theorem descendNames_cons_descend (n : String) (tr : List NavEv) :
    descendNames (NavEv.descend n :: tr) = n :: descendNames tr := rfl

theorem descendNames_cons_back (tr : List NavEv) :
    descendNames (NavEv.back :: tr) = descendNames tr := rfl

theorem descendNames_cons_yielded (p : Paper) (tr : List NavEv) :
    descendNames (NavEv.yielded p :: tr) = descendNames tr := rfl

theorem descendNames_append (tr1 tr2 : List NavEv) :
    descendNames (tr1 ++ tr2) = descendNames tr1 ++ descendNames tr2 :=
  List.filterMap_append tr1 tr2 _

/-! ## Claim C2: push/pop balance of the branch-level traversal -/

theorem yieldStep_no_interrupt (ctx : BLCtx) (h : ctx.interruptAt = none) (s : BLState) :
    yieldStep ctx s = ({s with y := s.y + 1}, false) := by
  simp [yieldStep, h]

theorem pdfLoopBrk_no_interrupt (ctx : BLCtx) (h : ctx.interruptAt = none)
    (mk : PdfInfo → Paper) (ps : List PdfInfo) :
    ∀ s : BLState, s.aborted = false →
      (pdfLoopBrk ctx mk ps s).2.aborted = false ∧
      countDescend (pdfLoopBrk ctx mk ps s).1 = 0 ∧
      countBack (pdfLoopBrk ctx mk ps s).1 = 0 ∧
      descendNames (pdfLoopBrk ctx mk ps s).1 = [] := by
  induction ps with
  | nil =>
    intro s hs
    simp [pdfLoopBrk, hs, countDescend_nil, countBack_nil, descendNames_nil]
  | cons p ps ih =>
    intro s hs
    by_cases hobs : obsStop ctx.T s.t = true
    · simp [pdfLoopBrk, hs, hobs, countDescend_nil, countBack_nil, descendNames_nil]
    · rw [Bool.not_eq_true] at hobs
      simp [pdfLoopBrk, hs, hobs, yieldStep_no_interrupt ctx h,
        countDescend_cons_yielded, countBack_cons_yielded, descendNames_cons_yielded,
        ih]

theorem pdfLoopRet_no_interrupt (ctx : BLCtx) (h : ctx.interruptAt = none)
    (mk : PdfInfo → Paper) (ps : List PdfInfo) :
    ∀ s : BLState, s.aborted = false →
      (pdfLoopRet ctx mk ps s).2.1.aborted = false ∧
      countDescend (pdfLoopRet ctx mk ps s).1 = 0 ∧
      countBack (pdfLoopRet ctx mk ps s).1 = 0 ∧
      descendNames (pdfLoopRet ctx mk ps s).1 = [] := by
  induction ps with
  | nil =>
    intro s hs
    simp [pdfLoopRet, hs, countDescend_nil, countBack_nil, descendNames_nil]
  | cons p ps ih =>
    intro s hs
    by_cases hobs : obsStop ctx.T s.t = true
    · simp [pdfLoopRet, hs, hobs, countDescend_nil, countBack_nil, descendNames_nil]
    · rw [Bool.not_eq_true] at hobs
      simp [pdfLoopRet, hs, hobs, yieldStep_no_interrupt ctx h,
        countDescend_cons_yielded, countBack_cons_yielded, descendNames_cons_yielded,
        ih]

theorem subLoop_no_interrupt (ctx : BLCtx) (h : ctx.interruptAt = none)
    (fname : String) (sfs : List SubFolder) :
    ∀ s : BLState, s.aborted = false →
      (subLoop ctx fname sfs s).2.aborted = false ∧
      countDescend (subLoop ctx fname sfs s).1 = countBack (subLoop ctx fname sfs s).1 := by
  induction sfs with
  | nil =>
    intro s hs
    simp [subLoop, hs, countDescend_nil, countBack_nil]
  | cons sf sfs ih =>
    intro s hs
    by_cases hobs : obsStop ctx.T s.t = true
    · simp [subLoop, hs, hobs, countDescend_nil, countBack_nil]
    · rw [Bool.not_eq_true] at hobs
      by_cases hclick : ctx.clickOk s.c = true
      · simp [subLoop, hs, hobs, hclick, pdfLoopBrk_no_interrupt ctx h, ih,
          countDescend_cons_descend, countBack_cons_descend,
          countDescend_cons_back, countBack_cons_back,
          countDescend_append, countBack_append]
      · rw [Bool.not_eq_true] at hclick
        simp [subLoop, hs, hobs, hclick, ih]

theorem folderLoop_no_interrupt (ctx : BLCtx) (h : ctx.interruptAt = none)
    (fs : List BFolder) :
    ∀ s : BLState, s.aborted = false →
      (folderLoop ctx fs s).2.aborted = false ∧
      countDescend (folderLoop ctx fs s).1 = countBack (folderLoop ctx fs s).1 := by
  induction fs with
  | nil =>
    intro s hs
    simp [folderLoop, hs, countDescend_nil, countBack_nil]
  | cons f fs ih =>
    intro s hs
    by_cases hobs : obsStop ctx.T s.t = true
    · simp [folderLoop, hs, hobs, countDescend_nil, countBack_nil]
    · rw [Bool.not_eq_true] at hobs
      by_cases hskip : should_skip_folder f.name = true
      · simp [folderLoop, hs, hobs, hskip, ih]
      · rw [Bool.not_eq_true] at hskip
        by_cases hclick : ctx.clickOk s.c = true
        · by_cases hsub : f.subs ≠ [] ∧ f.subs.length < 50
          · have hpdf := pdfLoopBrk_no_interrupt ctx h
              (fun p => create_paper p ctx.year ctx.session f.name "") f.pdfs
              ⟨s.t + 1, s.c + 1, s.y, false⟩ rfl
            have hsubL := subLoop_no_interrupt ctx h f.name (f.subs.take 30) _ hpdf.1
            have hfold := ih _ hsubL.1
            simp [folderLoop, hs, hobs, hskip, hclick, hsub, hpdf.1, hpdf.2.1,
              hpdf.2.2.1, hsubL.1, hsubL.2, hfold.1, hfold.2,
              countDescend_cons_descend, countBack_cons_descend,
              countDescend_cons_back, countBack_cons_back,
              countDescend_append, countBack_append]
            all_goals omega
          · have hpdf := pdfLoopBrk_no_interrupt ctx h
              (fun p => create_paper p ctx.year ctx.session f.name "") f.pdfs
              ⟨s.t + 1, s.c + 1, s.y, false⟩ rfl
            have hfold := ih _ hpdf.1
            simp [folderLoop, hs, hobs, hskip, hclick, hsub, hpdf.1, hpdf.2.1,
              hpdf.2.2.1, hfold.1, hfold.2,
              countDescend_cons_descend, countBack_cons_descend,
              countDescend_cons_back, countBack_cons_back,
              countDescend_append, countBack_append, countDescend_nil, countBack_nil]
        · rw [Bool.not_eq_true] at hclick
          simp [folderLoop, hs, hobs, hskip, hclick, ih]

/-- Claim C2 as amended: in every run of `_scrape_branch_level` that is
not aborted by an exception delivered at a yield point, the total number
of descend operations (successful folder clicks) equals the total number
of return-to-parent operations (`_safe_go_back` calls) — for every page
content, every stop-flag schedule (including the flag becoming set at any
point mid-visit) and every pattern of folder-click failures. -/
theorem C2_branch_level_balanced (ctx : BLCtx) (page : BranchPage)
    (t0 c0 y0 : Nat) (h : ctx.interruptAt = none) :
    countDescend (scrape_branch_level ctx page ⟨t0, c0, y0, false⟩).1 =
      countBack (scrape_branch_level ctx page ⟨t0, c0, y0, false⟩).1 := by
  by_cases hobs : obsStop ctx.T t0 = true
  · simp [scrape_branch_level, hobs, countDescend_nil, countBack_nil]
  · rw [Bool.not_eq_true] at hobs
    have hret := pdfLoopRet_no_interrupt ctx h
      (fun p => create_paper p ctx.year ctx.session "" "") page.pdfs
      ⟨t0 + 1, c0, y0, false⟩ rfl
    have hfold := folderLoop_no_interrupt ctx h page.folders _ hret.1
    simp only [scrape_branch_level, hobs, Bool.false_eq_true, if_false]
    split
    · simp [hret.2.1, hret.2.2.1]
    · simp [countDescend_append, countBack_append, hret.2.1, hret.2.2.1, hfold.2]

/-- A context in which the consumer closes the generator at its very
first yield (as `run_scrape` does when it `break`s on a stop request
while the Tree Harvester is suspended at a yield): `GeneratorExit` is
raised at that yield and no handler in `_scrape_branch_level` runs the
pending `_safe_go_back` calls. -/
def c2Ctx : BLCtx := ⟨none, fun _ => true, some 0, "2023", "Dec 2022 - Jan 2023"⟩

def c2Page : BranchPage :=
  ⟨[], [⟨"Chemical", [⟨"Thermo (CHE-2104).pdf", "u"⟩], []⟩]⟩

/-- Counterexample to claim C2 as stated: when the visit raises an error
at a yield (here: the generator is closed at the first yield, after the
traversal successfully clicked into the folder `Chemical`), the visit
exits with one descend and zero return-to-parent operations — the
return-to-parent step is NOT executed on the exception exit, because
lines 187-222 have no `try/finally`. -/
theorem C2_counterexample :
    countDescend (scrape_branch_level c2Ctx c2Page ⟨0, 0, 0, false⟩).1 = 1 ∧
    countBack (scrape_branch_level c2Ctx c2Page ⟨0, 0, 0, false⟩).1 = 0 := by
  decide

/-- Witness for the amended C2 at a concrete input: stop flag set from
poll instant 3, a click oracle that fails every odd click, two folders
with PDFs and subfolders, no exception delivered at a yield. -/
def c2wCtx : BLCtx :=
  ⟨some 3, fun n => decide (n % 2 = 0), none, "2019", "Dec 2018-Jan 2019"⟩

def c2wPage : BranchPage :=
  ⟨[⟨"Top (ABC 1234).pdf", "t"⟩],
   [⟨"Chemical", [⟨"A.pdf", "a"⟩], [⟨"III Sem", [⟨"B.pdf", "b"⟩]⟩]⟩,
    ⟨"Civil", [], [⟨"IV Sem", []⟩]⟩]⟩

theorem C2_branch_level_balanced_witness :
    countDescend (scrape_branch_level c2wCtx c2wPage ⟨0, 0, 0, false⟩).1 =
      countBack (scrape_branch_level c2wCtx c2wPage ⟨0, 0, 0, false⟩).1 :=
  C2_branch_level_balanced c2wCtx c2wPage 0 0 0 rfl

/-! ## Claim C9: the 50-subfolder guard and the 30-sibling cap -/

/-- A benign context for C9: the stop flag is never set, every click
succeeds, no exception is delivered. -/
def c9Ctx (year session : String) : BLCtx :=
  ⟨none, fun _ => true, none, year, session⟩

theorem pdfLoopRet_no_stop (ctx : BLCtx) (hT : ctx.T = none)
    (hI : ctx.interruptAt = none) (mk : PdfInfo → Paper) (ps : List PdfInfo) :
    ∀ s : BLState, s.aborted = false → (pdfLoopRet ctx mk ps s).2.2 = false := by
  induction ps with
  | nil => intro s hs; simp [pdfLoopRet]
  | cons p ps ih =>
    intro s hs
    simp [pdfLoopRet, hs, hT, obsStop, yieldStep_no_interrupt ctx hI, ih]

theorem subLoop_names (ctx : BLCtx) (hT : ctx.T = none)
    (hI : ctx.interruptAt = none) (hC : ∀ n, ctx.clickOk n = true)
    (fname : String) (sfs : List SubFolder) :
    ∀ s : BLState, s.aborted = false →
      (subLoop ctx fname sfs s).2.aborted = false ∧
      descendNames (subLoop ctx fname sfs s).1 = sfs.map SubFolder.name := by
  induction sfs with
  | nil => intro s hs; simp [subLoop, hs, descendNames_nil]
  | cons sf sfs ih =>
    intro s hs
    have hpdf := pdfLoopBrk_no_interrupt ctx hI
      (fun p => create_paper p ctx.year ctx.session fname sf.name) sf.pdfs
      ⟨s.t + 1, s.c + 1, s.y, false⟩ rfl
    have hrest := ih _ hpdf.1
    simp [subLoop, hs, hT, obsStop, hC, hpdf.1, hpdf.2.2.2, hrest.1, hrest.2,
      descendNames_cons_descend, descendNames_cons_back, descendNames_append]

/-- Claim C9: for a branch-level folder (here named `Chemical`, which is
not on the skip list) reached with no stop request, successful clicks and
no interrupts, the subfolders explored are exactly the first 30 when the
subfolder listing has fewer than 50 entries, and NONE when it has 50 or
more — the 30-sibling cap applies only below the 50-entry guard. -/
theorem C9_subfolder_caps (year session : String) (pdfs fpdfs : List PdfInfo)
    (subs : List SubFolder) :
    descendNames (scrape_branch_level (c9Ctx year session)
        ⟨pdfs, [⟨"Chemical", fpdfs, subs⟩]⟩ ⟨0, 0, 0, false⟩).1 =
      "Chemical" ::
        (if subs.length < 50 then (subs.take 30).map SubFolder.name else []) := by
  have hT : (c9Ctx year session).T = none := rfl
  have hI : (c9Ctx year session).interruptAt = none := rfl
  have hC : ∀ n, (c9Ctx year session).clickOk n = true := fun _ => rfl
  have hyear : (c9Ctx year session).year = year := rfl
  have hsession : (c9Ctx year session).session = session := rfl
  have hskip : should_skip_folder "Chemical" = false := by decide
  have hret := pdfLoopRet_no_interrupt (c9Ctx year session) hI
    (fun p => create_paper p year session "" "") pdfs ⟨1, 0, 0, false⟩ rfl
  have hflag := pdfLoopRet_no_stop (c9Ctx year session) hT hI
    (fun p => create_paper p year session "" "") pdfs ⟨1, 0, 0, false⟩ rfl
  have hmid := pdfLoopBrk_no_interrupt (c9Ctx year session) hI
    (fun p => create_paper p year session "Chemical" "") fpdfs
  have hsubL := subLoop_names (c9Ctx year session) hT hI hC "Chemical" (subs.take 30)
  by_cases hsub : subs ≠ [] ∧ subs.length < 50
  · simp [scrape_branch_level, folderLoop, hT, hI, hC, hyear, hsession, obsStop,
      hskip, hsub, hsub.2, hret.1, hret.2.2.2, hflag, hmid, hsubL,
      descendNames_append, descendNames_cons_descend, descendNames_cons_back,
      descendNames_nil]
  · rw [not_and_or, not_not, not_lt] at hsub
    rcases hsub with hnil | hge
    · subst hnil
      simp [scrape_branch_level, folderLoop, hT, hI, hC, hyear, hsession, obsStop,
        hskip, hret.1, hret.2.2.2, hflag, hmid,
        descendNames_append, descendNames_cons_descend, descendNames_cons_back,
        descendNames_nil]
    · have hnotlt : ¬ subs.length < 50 := not_lt.mpr hge
      simp [scrape_branch_level, folderLoop, hT, hI, hC, hyear, hsession, obsStop,
        hskip, hnotlt, hret.1, hret.2.2.2, hflag, hmid,
        descendNames_append, descendNames_cons_descend, descendNames_cons_back,
        descendNames_nil]
